import Mathlib

/-!
Shallow embedding of `src/app/services/agent.py` from the RealEstateAgent
repository (a WhatsApp-facing real-estate query assistant), together with
proofs about the claims of its specification.

The Python module orchestrates three external collaborators: a query
interpreter (LLM call), a listing/trend extraction API (Firecrawl) and a
summarizer (LLM call).  We model those collaborators as an `Oracle` of
response functions, exceptions as `Except String`, Python values flowing
through the pipeline as `PyVal`, and the observable side effects (agent
construction, network calls, error logging) as a trace of `Event`s.

Note on the source text: the Python file's string literals contain
mojibake characters (for example the error-mark prefix is the three
characters U+201A U+00F9 U+00E5, a double-encoded cross mark).  We
reproduce those codepoints exactly via `Char.ofNat`.  The long prompt
strings sent to the external collaborators are reproduced with their
interpolations in source order, but the indentation whitespace of the
Python triple-quoted literals and the decorative mojibake section markers
inside the prompts are not reproduced character-for-character: no theorem
below depends on the prompt text, only on which call receives which data.
-/

/-- A Python value as it flows through this module: `None`, booleans,
numbers (modelled as rationals), strings, lists and string-keyed dicts
(the only dict keys appearing here are strings, coming from JSON). -/
inductive PyVal where
  | none : PyVal
  | bool : Bool → PyVal
  | num : Rat → PyVal
  | str : String → PyVal
  | list : List PyVal → PyVal
  | dict : List (String × PyVal) → PyVal
deriving BEq, Repr

/-- Python truthiness (`bool(v)`): `None`, `False`, `0`, `""`, `[]` and
an empty dict are falsy, everything else is truthy. -/
def PyVal.truthy : PyVal → Bool
  | .none => false
  | .bool b => b
  | .num q => q != 0
  | .str s => s != ""
  | .list xs => !xs.isEmpty
  | .dict kvs => !kvs.isEmpty

/-- Lookup in a dict's entry list.  Python dicts keep one binding per key
(later JSON duplicates overwrite earlier ones), so we look up the last
binding with the key, matching `json.loads` + `dict.get` semantics. -/
def dictLookup (kvs : List (String × PyVal)) (k : String) : Option PyVal :=
  (kvs.reverse.find? (fun p => p.1 = k)).map (fun p => p.2)

/-- `v.get(k, dflt)` — a method call on what must be a dict; on any other
receiver Python raises `AttributeError` (modelled as `Except.error`). -/
def pyGetE (v : PyVal) (k : String) (dflt : PyVal) : Except String PyVal :=
  match v with
  | .dict kvs => .ok ((dictLookup kvs k).getD dflt)
  | _ => .error "AttributeError"

/-- `v[k]` subscription: `KeyError` when the key is absent,
`TypeError` when the receiver is not a dict. -/
def pySubscript (v : PyVal) (k : String) : Except String PyVal :=
  match v with
  | .dict kvs =>
      match dictLookup kvs k with
      | some w => .ok w
      | Option.none => .error "KeyError"
  | _ => .error "TypeError"

/-- ASCII lowercasing, written over the character list so that concrete
applications reduce by `rfl` (Lean's `String.toLower` recurses over byte
positions, which the kernel cannot evaluate). -/
def strLower (s : String) : String := String.mk (s.data.map Char.toLower)

/-- Python `v == s` against a string literal: true only for an equal
string (values of other types compare unequal, no exception). -/
def pyEqStr (v : PyVal) (s : String) : Bool :=
  match v with
  | .str t => t == s
  | _ => false

/-- `s.lower()` — an `AttributeError` on a non-string receiver. -/
def pyLower (v : PyVal) : Except String String :=
  match v with
  | .str s => .ok (strLower s)
  | _ => .error "AttributeError"

/-- The opening-brace character, written via its codepoint. -/
def lbrace : Char := Char.ofNat 123

/-- The closing-brace character, written via its codepoint. -/
def rbrace : Char := Char.ofNat 125

/-- A single apostrophe as a string. -/
def apos : String := String.mk [Char.ofNat 39]

mutual

/-- Python `str()` of a value, used when values are interpolated into
prompt f-strings.  Number rendering is simplified (integers print without
a trailing `.0`); no theorem depends on this rendering. -/
def pyStr : PyVal → String
  | .none => "None"
  | .bool true => "True"
  | .bool false => "False"
  | .num q => if q.den = 1 then toString q.num else toString q.num ++ "/" ++ toString q.den
  | .str s => s
  | .list xs => "[" ++ pyStrElems xs ++ "]"
  | .dict kvs => String.mk [lbrace] ++ pyStrEntries kvs ++ String.mk [rbrace]

/-- `repr()`-style rendering used for elements inside containers:
strings are quoted. -/
def pyStrQ : PyVal → String
  | .str s => apos ++ s ++ apos
  | v => pyStr v

/-- Comma-separated rendering of list elements. -/
def pyStrElems : List PyVal → String
  | [] => ""
  | [v] => pyStrQ v
  | v :: rest => pyStrQ v ++ ", " ++ pyStrElems rest

/-- Comma-separated rendering of dict entries. -/
def pyStrEntries : List (String × PyVal) → String
  | [] => ""
  | [(k, v)] => apos ++ k ++ apos ++ ": " ++ pyStrQ v
  | (k, v) :: rest => apos ++ k ++ apos ++ ": " ++ pyStrQ v ++ ", " ++ pyStrEntries rest

end

/-! ### A model of `json.loads`

`interpret_user_query` decodes the brace-delimited substring of the model
response with `json.loads`.  We model the decoder as a recursive-descent
parser over the character list, with a fuel argument bounding nesting
depth.  `jsonLoads` returns `Option.none` exactly where `json.loads`
raises (a malformed document or trailing data). -/

/-- JSON insignificant whitespace (space, tab, newline, carriage return). -/
def jsonWs (c : Char) : Bool :=
  c = ' ' || c = Char.ofNat 9 || c = Char.ofNat 10 || c = Char.ofNat 13

/-- Drop leading JSON whitespace. -/
def skipWs : List Char → List Char
  | [] => []
  | c :: rest => if jsonWs c then skipWs rest else c :: rest

/-- Hex digit to its value. -/
def hexVal (c : Char) : Option Nat :=
  if c.isDigit then some (c.toNat - 48)
  else if 97 ≤ c.toLower.toNat ∧ c.toLower.toNat ≤ 102 then some (c.toLower.toNat - 87)
  else Option.none

/-- Decode a one-character JSON escape (everything except the `\u` form). -/
def simpleEscape (e : Char) : Option Char :=
  if e = Char.ofNat 34 then some (Char.ofNat 34)
  else if e = Char.ofNat 92 then some (Char.ofNat 92)
  else if e = Char.ofNat 47 then some (Char.ofNat 47)
  else if e = 'b' then some (Char.ofNat 8)
  else if e = 'f' then some (Char.ofNat 12)
  else if e = 'n' then some (Char.ofNat 10)
  else if e = 'r' then some (Char.ofNat 13)
  else if e = 't' then some (Char.ofNat 9)
  else Option.none

/-- Parse the body of a JSON string after the opening quote, returning the
decoded characters and the input after the closing quote.  The fuel is
structural (one unit per consumed character) so that concrete decodes
reduce by `rfl`; `jsonLoads` supplies enough fuel for any input. -/
def parseStringBody : Nat → List Char → Option (List Char × List Char)
  | 0, _ => Option.none
  | _ + 1, [] => Option.none
  | fuel + 1, c :: rest =>
      if c = Char.ofNat 34 then some ([], rest)
      else if c = Char.ofNat 92 then
        match rest with
        | [] => Option.none
        | e :: rest2 =>
            if e = 'u' then
              match rest2 with
              | h1 :: h2 :: h3 :: h4 :: rest3 =>
                  match hexVal h1, hexVal h2, hexVal h3, hexVal h4 with
                  | some a, some b, some c3, some d =>
                      match parseStringBody fuel rest3 with
                      | some (cs, rem) =>
                          some (Char.ofNat (((a * 16 + b) * 16 + c3) * 16 + d) :: cs, rem)
                      | Option.none => Option.none
                  | _, _, _, _ => Option.none
              | _ => Option.none
            else
              match simpleEscape e with
              | some ch =>
                  match parseStringBody fuel rest2 with
                  | some (cs, rem) => some (ch :: cs, rem)
                  | Option.none => Option.none
              | Option.none => Option.none
      else
        match parseStringBody fuel rest with
        | some (cs, rem) => some (c :: cs, rem)
        | Option.none => Option.none

/-- Take a maximal run of decimal digits (at least one required). -/
def takeDigits (l : List Char) : Option (List Char × List Char) :=
  let ds := l.takeWhile Char.isDigit
  if ds.isEmpty then Option.none else some (ds, l.drop ds.length)

/-- Digits to the natural number they denote. -/
def digitsToNat (ds : List Char) : Nat :=
  ds.foldl (fun acc c => acc * 10 + (c.toNat - 48)) 0

/-- Parse a JSON number (sign, integer part, optional fraction, optional
exponent) into a rational, built with `mkRat` over integer arithmetic. -/
def parseNumber (l : List Char) : Option (Rat × List Char) :=
  let (neg, l1) :=
    match l with
    | c :: rest => if c = '-' then (true, rest) else (false, l)
    | [] => (false, l)
  match takeDigits l1 with
  | Option.none => Option.none
  | some (ints, l2) =>
      let (fracDs, l3) :=
        match l2 with
        | c :: rest =>
            if c = '.' then
              match takeDigits rest with
              | some (ds, l3) => (ds, l3)
              | Option.none => ([], c :: rest)
            else ([], l2)
        | [] => ([], l2)
      let (expSign, expDs, l4) :=
        match l3 with
        | c :: rest =>
            if c = 'e' ∨ c = 'E' then
              match rest with
              | s :: rest2 =>
                  if s = '+' then
                    match takeDigits rest2 with
                    | some (ds, l4) => (true, ds, l4)
                    | Option.none => (true, ([] : List Char), l3)
                  else if s = '-' then
                    match takeDigits rest2 with
                    | some (ds, l4) => (false, ds, l4)
                    | Option.none => (true, ([] : List Char), l3)
                  else
                    match takeDigits rest with
                    | some (ds, l4) => (true, ds, l4)
                    | Option.none => (true, ([] : List Char), l3)
              | [] => (true, ([] : List Char), l3)
            else (true, ([] : List Char), l3)
        | [] => (true, ([] : List Char), l3)
      let mantNum : Nat := digitsToNat (ints ++ fracDs)
      let e : Nat := digitsToNat expDs
      let num : Nat := if expSign then mantNum * 10 ^ e else mantNum
      let den : Nat := if expSign then 10 ^ fracDs.length else 10 ^ fracDs.length * 10 ^ e
      let q : Rat := mkRat (if neg then -(num : Int) else (num : Int)) den
      some (q, l4)

/-- Consume an exact literal. -/
def parseLit (pat : List Char) (l : List Char) : Option (List Char) :=
  match pat, l with
  | [], rest => some rest
  | p :: ps, c :: cs => if c = p then parseLit ps cs else Option.none
  | _ :: _, [] => Option.none

mutual

/-- Parse one JSON value.  The fuel is structural (every recursive call
spends one unit) so that concrete parses reduce by `rfl`; `jsonLoads`
supplies more fuel than any input can consume. -/
def parseValue : Nat → List Char → Option (PyVal × List Char)
  | 0, _ => Option.none
  | fuel + 1, l =>
      match skipWs l with
      | [] => Option.none
      | c :: rest =>
          if c = lbrace then parseObject fuel rest
          else if c = '[' then parseArray fuel rest
          else if c = Char.ofNat 34 then
            match parseStringBody (rest.length + 1) rest with
            | some (cs, rem) => some (.str (String.mk cs), rem)
            | Option.none => Option.none
          else if c = 't' then
            (parseLit ['r', 'u', 'e'] rest).map (fun rem => (.bool true, rem))
          else if c = 'f' then
            (parseLit ['a', 'l', 's', 'e'] rest).map (fun rem => (.bool false, rem))
          else if c = 'n' then
            (parseLit ['u', 'l', 'l'] rest).map (fun rem => (.none, rem))
          else
            match parseNumber (c :: rest) with
            | some (q, rem) => some (.num q, rem)
            | Option.none => Option.none

/-- Parse an object body (after the opening brace). -/
def parseObject : Nat → List Char → Option (PyVal × List Char)
  | 0, _ => Option.none
  | fuel + 1, l =>
      match skipWs l with
      | c :: rest =>
          if c = rbrace then some (.dict [], rest)
          else parseMembers fuel (c :: rest) []
      | [] => Option.none

/-- Parse the members of a non-empty object. -/
def parseMembers : Nat → List Char → List (String × PyVal) → Option (PyVal × List Char)
  | 0, _, _ => Option.none
  | fuel + 1, l, acc =>
      match skipWs l with
      | c :: rest =>
          if c = Char.ofNat 34 then
            match parseStringBody (rest.length + 1) rest with
            | some (kcs, rem1) =>
                match skipWs rem1 with
                | c2 :: rem2 =>
                    if c2 = ':' then
                      match parseValue fuel rem2 with
                      | some (v, rem3) =>
                          let acc2 := acc ++ [(String.mk kcs, v)]
                          match skipWs rem3 with
                          | c3 :: rem4 =>
                              if c3 = ',' then parseMembers fuel rem4 acc2
                              else if c3 = rbrace then some (.dict acc2, rem4)
                              else Option.none
                          | [] => Option.none
                      | Option.none => Option.none
                    else Option.none
                | [] => Option.none
            | Option.none => Option.none
          else Option.none
      | [] => Option.none

/-- Parse an array body (after the opening bracket). -/
def parseArray : Nat → List Char → Option (PyVal × List Char)
  | 0, _ => Option.none
  | fuel + 1, l =>
      match skipWs l with
      | c :: rest =>
          if c = ']' then some (.list [], rest)
          else parseElems fuel (c :: rest) []
      | [] => Option.none

/-- Parse the elements of a non-empty array. -/
def parseElems : Nat → List Char → List PyVal → Option (PyVal × List Char)
  | 0, _, _ => Option.none
  | fuel + 1, l, acc =>
      match parseValue fuel l with
      | some (v, rem) =>
          let acc2 := acc ++ [v]
          match skipWs rem with
          | c :: rest =>
              if c = ',' then parseElems fuel rest acc2
              else if c = ']' then some (.list acc2, rest)
              else Option.none
          | [] => Option.none
      | Option.none => Option.none

end

/-- The model of `json.loads`: parse one document, then require only
whitespace to remain (Python raises `Extra data` otherwise).
`Option.none` stands for a raised `json.JSONDecodeError`. -/
def jsonLoads (s : String) : Option PyVal :=
  match parseValue (4 * s.length + 8) s.data with
  | some (v, rem) => if (skipWs rem).isEmpty then some v else Option.none
  | Option.none => Option.none

/-! ### Models of the two regular-expression searches

`interpret_user_query` uses `re.search` twice: once with the pattern
"brace, anything (DOTALL), brace" (greedy, so it spans from the first
opening brace to the last closing brace of the text), and once with a
case-insensitive fallback pattern extracting a city token. -/

/-- Index of the last occurrence of a character. -/
def lastIdxOf (c : Char) (l : List Char) : Option Nat :=
  match l.reverse.findIdx? (fun x => x = c) with
  | some j => some (l.length - 1 - j)
  | Option.none => Option.none

/-- Model of `re.search` with the brace pattern under `re.DOTALL`:
leftmost match start (the first opening brace followed by some closing
brace) with a greedy body (extending to the last closing brace). -/
def braceSearch (s : String) : Option String :=
  let l := s.data
  match l.findIdx? (fun c => c = lbrace), lastIdxOf rbrace l with
  | some i, some j =>
      if i < j then some (String.mk ((l.drop i).take (j - i + 1))) else Option.none
  | _, _ => Option.none

/-- The character class following "city" in the fallback pattern:
a double quote, whitespace or a colon. -/
def isCitySep (c : Char) : Bool := c = Char.ofNat 34 || c.isWhitespace || c = ':'

/-- The capture class of the fallback pattern: anything except a double
quote, a comma or whitespace. -/
def isCityCap (c : Char) : Bool := !(c = Char.ofNat 34 || c = ',' || c.isWhitespace)

/-- Backtracking step of the fallback pattern: after the literal "city",
try consuming `m` separator characters (greedily, from the maximal run
downwards) and then capture a non-empty run of capture-class characters. -/
def tryCapture (rest : List Char) : Nat → Option (List Char)
  | 0 => Option.none
  | m + 1 =>
      match rest.drop (m + 1) with
      | [] => tryCapture rest m
      | c :: _ =>
          if isCityCap c then some ((rest.drop (m + 1)).takeWhile isCityCap)
          else tryCapture rest m

/-- Try the fallback pattern anchored at the head of the list: the
literal "city" (case-insensitive), one or more separator characters,
then a non-empty capture. -/
def matchCityAt (l : List Char) : Option (List Char) :=
  if (l.take 4).map Char.toLower = ['c', 'i', 't', 'y'] then
    let rest := l.drop 4
    let k := (rest.takeWhile isCitySep).length
    if k = 0 then Option.none else tryCapture rest k
  else Option.none

/-- Scan start positions left to right (the semantics of `re.search`). -/
def citySearchAux : List Char → Option (List Char)
  | [] => Option.none
  | c :: tl =>
      match matchCityAt (c :: tl) with
      | some cap => some cap
      | Option.none => citySearchAux tl

/-- Model of the fallback `re.search` for a city name, returning the
captured group. -/
def citySearch (s : String) : Option String :=
  (citySearchAux s.data).map String.mk

/-- The try-block of `interpret_user_query` (lines 229-249 of agent.py):
locate a brace-delimited substring; if found, decode it with
`json.loads` and return the decoded parameters — a decode exception is
caught by the `except` clause, which returns the empty dict.  Only when
no brace-delimited substring exists does the code fall back to the city
pattern with hard defaults for all other fields. -/
def parseInterpreterResponse (content : String) : PyVal :=
  match braceSearch content with
  | some sub =>
      match jsonLoads sub with
      | some params => params
      | Option.none => PyVal.dict []
  | Option.none =>
      PyVal.dict
        [("city", match citySearch content with
                  | some c => PyVal.str c
                  | Option.none => PyVal.none),
         ("max_price", PyVal.num 5),
         ("property_category", PyVal.str "Residential"),
         ("property_type", PyVal.str "Flat")]

/-! ### Fixed strings of the module

The Python source's literals contain double-encoded (mojibake)
characters; we reproduce those codepoints exactly. -/

/-- The three-character mojibake error mark opening every error string. -/
def errMark : String := String.mk [Char.ofNat 0x201A, Char.ofNat 0xF9, Char.ofNat 0xE5]

/-- Returned when either API key is missing (line 337). -/
def missingKeysMsg : String :=
  errMark ++ " Error: Missing API keys. Please set FIRECRAWL_API_KEY and OPENAI_API_KEY in your .env file."

/-- Returned when the message body is falsy (line 347). -/
def emptyQueryMsg : String := errMark ++ " Please provide a search query!"

/-- Returned when the interpreted parameters have no truthy city (line 353). -/
def noCityMsg : String :=
  errMark ++ " Couldn" ++ apos ++ "t determine which city you" ++ apos ++
    "re interested in. Please specify a city."

/-- Returned by the top-level exception handler (line 390). -/
def genericErrorMsg : String :=
  errMark ++ " An error occurred while processing your request. Please try again later."

/-- Sentinel returned by `get_location_trends` on extraction failure
(line 202 — note: no trailing period in the source). -/
def noTrendsMsg : String := "No price trends data available"

/-- The seven-character mojibake house mark of the recommendations header. -/
def houseMark : String :=
  String.mk [Char.ofNat 0xF8FF, Char.ofNat 0xFC, Char.ofNat 0xE8, Char.ofNat 0xF2,
             Char.ofNat 0xD4, Char.ofNat 0x220F, Char.ofNat 0xE8]

/-- The 50-hyphen separator line. -/
def dashes : String := "--------------------------------------------------"

/-- The fixed header wrapped around the fetcher text (lines 381-383). -/
def recommendHeader : String :=
  "\n" ++ houseMark ++ " PROPERTY RECOMMENDATIONS\n" ++ dashes ++ "\n"

/-! ### Prompts sent to the external collaborators -/

/-- The query-interpretation prompt (lines 207-226), with the user query
interpolated. -/
def interpretPrompt (query : String) : String :=
  "Extract real estate search parameters from the following user query:\n\n" ++
  "User query: \"" ++ query ++ "\"\n\n" ++
  "Extract these parameters:\n" ++
  "1. City name (required)\n" ++
  "2. Maximum price in crores (default is 5 crores if not specified)\n" ++
  "3. Property category: \"Residential\" or \"Commercial\" (default is \"Residential\" if not specified)\n" ++
  "4. Property type: \"Flat\" or \"Individual House\" (default is \"Flat\" if not specified)\n\n" ++
  "Output in JSON format:\n" ++
  "\x7b\n" ++
  "  \"city\": \"extracted city name\",\n" ++
  "  \"max_price\": extracted price as a number or null if not specified,\n" ++
  "  \"property_category\": \"extracted category or default\",\n" ++
  "  \"property_type\": \"extracted type or default\"\n" ++
  "\x7d\n\n" ++
  "Only output valid JSON, no explanations or additional text."

/-- The three listing-source URLs (lines 76-81); the fourth (nobroker)
candidate is commented out in the source. -/
def propertyUrls (formatted_location : String) : List String :=
  ["https://www.squareyards.com/sale/property-for-sale-in-" ++ formatted_location ++ "/*",
   "https://www.99acres.com/property-in-" ++ formatted_location ++ "-ffid/*",
   "https://housing.com/in/buy/" ++ formatted_location ++ "/" ++ formatted_location]

/-- The listing-extraction prompt (lines 88-98).  The accompanying
`schema` argument (the static JSON schema of `PropertiesResponse`) is
not modelled separately: it carries no run-time data. -/
def findPrompt (city property_category : PyVal) (property_type_prompt : String)
    (max_price : PyVal) : String :=
  "Extract ONLY 5 OR LESS different " ++ pyStr property_category ++ " " ++
    property_type_prompt ++ " from " ++ pyStr city ++ " that cost less than " ++
    pyStr max_price ++ " crores.\n\n" ++
  "Requirements:\n" ++
  "- Property Category: " ++ pyStr property_category ++ " properties only\n" ++
  "- Property Type: " ++ property_type_prompt ++ " only\n" ++
  "- Location: " ++ pyStr city ++ "\n" ++
  "- Maximum Price: " ++ pyStr max_price ++ " crores\n" ++
  "- Include complete property details with exact location\n" ++
  "- IMPORTANT: Return data for at least 3 different properties. MAXIMUM 5.\n" ++
  "- Format as a list of properties with their respective details"

/-- The summarization prompt of `find_properties` (lines 114-144), with
the processed property records interpolated. -/
def analysisPrompt (properties property_category property_type max_price : PyVal) : String :=
  "As a real estate expert, analyze these properties and market trends:\n\n" ++
  "Properties Found in json format:\n" ++ pyStr properties ++ "\n\n" ++
  "**IMPORTANT INSTRUCTIONS:**\n" ++
  "1. ONLY analyze properties from the above JSON data that match the user" ++ apos ++
    "s requirements:\n" ++
  "   - Property Category: " ++ pyStr property_category ++ "\n" ++
  "   - Property Type: " ++ pyStr property_type ++ "\n" ++
  "   - Maximum Price: " ++ pyStr max_price ++ " crores\n" ++
  "2. DO NOT create new categories or property types\n" ++
  "3. From the matching properties, select 5-6 properties with prices closest to " ++
    pyStr max_price ++ " crores\n\n" ++
  "Please provide your analysis in this format:\n\n" ++
  "SELECTED PROPERTIES\n" ++
  "- List only 5-6 best matching properties with prices closest to " ++
    pyStr max_price ++ " crores\n" ++
  "- For each property include:\n  - Name and Location\n  - Price (with value analysis)\n" ++
  "  - Key Features\n  - Pros and Cons\n\n" ++
  "BEST VALUE ANALYSIS\n" ++
  "- Compare the selected properties based on:\n  - Price per sq ft\n" ++
  "  - Location advantage\n  - Amenities offered\n\n" ++
  "Format your response in a clear, structured way using the above sections."

/-- The single trends-source URL (line 152). -/
def trendsUrl (city : String) : String :=
  "https://www.99acres.com/property-rates-and-price-trends-in-" ++ strLower city ++ "-prffid/*"

/-- The trends-extraction prompt (lines 154-160); a constant. -/
def trendsExtractPrompt : String :=
  "Extract price trends data for ALL major localities in the city.\n" ++
  "IMPORTANT:\n" ++
  "- Return data for at least 5-10 different localities\n" ++
  "- Include both premium and affordable areas\n" ++
  "- Do not skip any locality mentioned in the source\n" ++
  "- Format as a list of locations with their respective data"

/-- The trends-summarization prompt (lines 168-197). -/
def trendsAnalysisPrompt (city : String) (locations : PyVal) : String :=
  "As a real estate expert, analyze these location price trends for " ++ city ++ ":\n\n" ++
  pyStr locations ++ "\n\n" ++
  "Please provide:\n" ++
  "1. A bullet-point summary of the price trends for each location\n" ++
  "2. Identify the top 3 locations with:\n   - Highest price appreciation\n" ++
  "   - Best rental yields\n   - Best value for money\n" ++
  "3. Investment recommendations:\n   - Best locations for long-term investment\n" ++
  "   - Best locations for rental income\n   - Areas showing emerging potential\n" ++
  "4. Specific advice for investors based on these trends\n\n" ++
  "Format the response as follows:\n\n" ++
  "LOCATION TRENDS SUMMARY\n- [Bullet points for each location]\n\n" ++
  "TOP PERFORMING AREAS\n- [Bullet points for best areas]\n\n" ++
  "INVESTMENT INSIGHTS\n- [Bullet points with investment advice]\n\n" ++
  "RECOMMENDATIONS\n- [Bullet points with specific recommendations]"

/-! ### The effect model

The module's externally visible behaviour is its return value plus the
calls it makes: construction of the `PropertyFindingAgent` (two LLM
agents and the extraction client — no network traffic), the
interpretation / extraction / summarization network calls, and error
logging.  We record those as a trace of events; the responses of the
external collaborators are supplied by an `Oracle`.  A collaborator
raising an exception is modelled by its oracle function returning
`Except.error`. -/

/-- One observable effect of the pipeline. -/
inductive Event where
  | agentConstructed : Event
  | interpCall (prompt : String) : Event
  | extractCall (urls : List String) (prompt : String) : Event
  | genCall (prompt : String) : Event
  | logError (msg : String) : Event
deriving BEq, Repr, DecidableEq

/-- Responses of the external collaborators: the query-interpreter agent
(`self.query_interpreter.run(...).content`), the summarizer agent
(`self.agent.run(...).content`) and the extraction API
(`self.firecrawl.extract(urls, params)`). -/
structure Oracle where
  interp : String → Except String String
  gen : String → Except String String
  extract : List String → String → Except String PyVal

/-- The process environment as read through `os.getenv`: `Option.none`
models an unset variable. -/
structure Env where
  firecrawl_api_key : Option String
  openai_api_key : Option String
  openai_model_id : Option String

/-- Python truthiness of an `os.getenv` result (`not key` is true for
both an unset variable and an empty string). -/
def envTruthy : Option String → Bool
  | Option.none => false
  | some s => s != ""

/-- `PropertyFindingAgent.interpret_user_query` (lines 204-249).  The
generation call (line 206) happens before the `try` block begins at
line 229: an exception raised by the call itself propagates to the
caller, while the `try` block only guards the parsing and returns the
empty dict on a parse exception (see `parseInterpreterResponse`). -/
def interpret_user_query (o : Oracle) (query : String) :
    Except String PyVal × List Event :=
  let prompt := interpretPrompt query
  match o.interp prompt with
  | .error e => (.error e, [.interpCall prompt])
  | .ok content => (.ok (parseInterpreterResponse content), [.interpCall prompt])

/-- `isinstance(raw_response, dict) and raw_response.get('success')`
(lines 105 and 164). -/
def acceptSuccess : PyVal → Bool
  | .dict kvs => ((dictLookup kvs "success").getD PyVal.none).truthy
  | _ => false

/-- `PropertyFindingAgent.find_properties` (lines 66-147).  Arguments
are `PyVal` because `generate_response` forwards whatever the
interpreted parameter dict contained (including `None`). -/
def find_properties (o : Oracle) (city max_price property_category property_type : PyVal) :
    Except String String × List Event :=
  match pyLower city with
  | .error e => (.error e, [])
  | .ok formatted_location =>
      let urls := propertyUrls formatted_location
      let property_type_prompt :=
        if pyEqStr property_type "Flat" then "Flats" else "Individual Houses"
      let prompt := findPrompt city property_category property_type_prompt max_price
      match o.extract urls prompt with
      | .error e => (.error e, [.extractCall urls prompt])
      | .ok raw =>
          let propsE : Except String PyVal :=
            if acceptSuccess raw then
              match pySubscript raw "data" with
              | .error e => .error e
              | .ok d => pyGetE d "properties" (PyVal.list [])
            else .ok (PyVal.list [])
          match propsE with
          | .error e => (.error e, [.extractCall urls prompt])
          | .ok properties =>
              let aprompt := analysisPrompt properties property_category property_type max_price
              (o.gen aprompt, [.extractCall urls prompt, .genCall aprompt])

/-- `PropertyFindingAgent.get_location_trends` (lines 149-202): on an
accepted extraction the records are summarized by a generation call; on
any other extraction result the fixed sentinel is returned with no
generation call. -/
def get_location_trends (o : Oracle) (city : String) :
    Except String String × List Event :=
  let urls := [trendsUrl city]
  match o.extract urls trendsExtractPrompt with
  | .error e => (.error e, [.extractCall urls trendsExtractPrompt])
  | .ok raw =>
      if acceptSuccess raw then
        match pySubscript raw "data" with
        | .error e => (.error e, [.extractCall urls trendsExtractPrompt])
        | .ok d =>
            match pyGetE d "locations" (PyVal.list []) with
            | .error e => (.error e, [.extractCall urls trendsExtractPrompt])
            | .ok locations =>
                let aprompt := trendsAnalysisPrompt city locations
                (o.gen aprompt, [.extractCall urls trendsExtractPrompt, .genCall aprompt])
      else (.ok noTrendsMsg, [.extractCall urls trendsExtractPrompt])

/-- Wrap the result of the `find_properties` call as lines 361-387 do:
an exception propagates, a result is wrapped under the fixed header. -/
def finishFind (pre : List Event) :
    Except String String × List Event → Except String String × List Event
  | (.error e, evs2) => (.error e, pre ++ evs2)
  | (.ok property_results, evs2) =>
      (.ok (recommendHeader ++ property_results ++ "\n"), pre ++ evs2)

/-- The body of `generate_response` inside its `try` block
(lines 330-387): key check, agent construction, empty-message check,
interpretation, city check, parameter defaults, listing fetch and
header wrapping.  `Except.error` models an exception reaching the
`except` clause. -/
def generate_response_body (o : Oracle) (env : Env) (message_body : String) :
    Except String String × List Event :=
  let firecrawl_key := env.firecrawl_api_key
  let openai_key := env.openai_api_key
  if !envTruthy firecrawl_key || !envTruthy openai_key then
    (.ok missingKeysMsg, [])
  else
    let pre := [Event.agentConstructed]
    if message_body = "" then (.ok emptyQueryMsg, pre)
    else
      match interpret_user_query o message_body with
      | (.error e, evs) => (.error e, pre ++ evs)
      | (.ok params, evs) =>
          match pyGetE params "city" PyVal.none with
          | .error e => (.error e, pre ++ evs)
          | .ok cityv =>
              if !cityv.truthy then (.ok noCityMsg, pre ++ evs)
              else
                match pyGetE params "max_price" (PyVal.num 5),
                      pyGetE params "property_category" (PyVal.str "Residential"),
                      pyGetE params "property_type" (PyVal.str "Flat") with
                | .ok max_price, .ok property_category, .ok property_type =>
                    finishFind (pre ++ evs)
                      (find_properties o cityv max_price property_category property_type)
                | .error e, _, _ => (.error e, pre ++ evs)
                | _, .error e, _ => (.error e, pre ++ evs)
                | _, _, .error e => (.error e, pre ++ evs)

/-- `generate_response` (lines 328-390): the whole body runs inside one
`try`; any exception is logged and converted to the fixed generic error
string, so a string is always returned. -/
def generate_response (o : Oracle) (env : Env) (message_body : String) :
    String × List Event :=
  match generate_response_body o env message_body with
  | (.ok response, evs) => (response, evs)
  | (.error e, evs) =>
      (genericErrorMsg, evs ++ [Event.logError ("Error generating response: " ++ e)])

/-! ### Concrete fixtures used by witnesses and counterexamples -/

/-- An environment with both required keys set. -/
def envFullW : Env :=
  { firecrawl_api_key := some "fc-key", openai_api_key := some "oa-key",
    openai_model_id := Option.none }

/-- An environment with neither key set. -/
def envEmptyW : Env :=
  { firecrawl_api_key := Option.none, openai_api_key := Option.none,
    openai_model_id := Option.none }

/-- An oracle whose every collaborator raises. -/
def oBoomW : Oracle :=
  { interp := fun _ => .error "boom",
    gen := fun _ => .error "boom",
    extract := fun _ _ => .error "boom" }

/-- An oracle whose interpreter responds with prose containing neither a
brace-delimited substring nor a city pattern match. -/
def oNoMatchW : Oracle :=
  { oBoomW with interp := fun _ => .ok "no mention at all" }

/-- An oracle whose interpreter responds with a brace-delimited substring
that is not valid JSON. -/
def oBadJsonW : Oracle :=
  { oBoomW with interp := fun _ => .ok "\x7bnot json\x7d" }

/-- The literal JSON document of the round-trip test. -/
def jsonLitC8 : String :=
  "\x7b\"city\":\"Pune\",\"max_price\":2,\"property_category\":\"Residential\",\"property_type\":\"Flat\"\x7d"

/-- An oracle whose interpreter responds with exactly the round-trip
JSON document. -/
def oJsonW : Oracle := { oBoomW with interp := fun _ => .ok jsonLitC8 }

/-- An extraction response reporting failure. -/
def rawFailW : PyVal := PyVal.dict [("success", PyVal.bool false)]

/-- An oracle whose extraction reports failure. -/
def oExtractFailW : Oracle :=
  { oBoomW with extract := fun _ _ => .ok rawFailW, gen := fun _ => .ok "SUMMARY" }

/-- A successful extraction response carrying an empty record list. -/
def rawOkEmptyW : PyVal :=
  PyVal.dict [("success", PyVal.bool true),
              ("data", PyVal.dict [("properties", PyVal.list [])])]

/-- A fully successful oracle: round-trip interpretation, successful
extraction with an empty record list, successful summarization. -/
def oHappyW : Oracle :=
  { interp := fun _ => .ok jsonLitC8,
    gen := fun _ => .ok "SUMMARY",
    extract := fun _ _ => .ok rawOkEmptyW }

/-! ### Helper lemmas shared by several proofs -/

/-- `interpret_user_query` always records exactly its one generation
call, whatever the oracle answers. -/
theorem interp_trace (o : Oracle) (q : String) :
    (interpret_user_query o q).2 = [Event.interpCall (interpretPrompt q)] := by
  rcases h : o.interp (interpretPrompt q) with e | c <;>
    simp [interpret_user_query, h]

/-- The trace of `finishFind` is the prefix followed by the find trace. -/
theorem finishFind_trace (pre : List Event) (r : Except String String × List Event) :
    (finishFind pre r).2 = pre ++ r.2 := by
  rcases r with ⟨res, evs⟩
  cases res <;> rfl

/-- The trace of `generate_response` extends the trace of its body. -/
theorem generate_response_trace_extends (o : Oracle) (env : Env) (msg : String) :
    ∃ tail, (generate_response o env msg).2 = (generate_response_body o env msg).2 ++ tail := by
  unfold generate_response
  rcases h : generate_response_body o env msg with ⟨res, evs⟩
  cases res with
  | ok r => exact ⟨[], by simp⟩
  | error e => exact ⟨[Event.logError ("Error generating response: " ++ e)], by simp⟩

/-! ### Claim theorems -/

/-- C1: For every input message, `generate_response` returns a string
and never raises: when its body completes normally the result string is
returned unchanged, and when any exception is raised inside the pipeline
(credential lookup, agent construction, query interpretation, listing
fetch, summarization) it is caught at the top level, exactly one error
is logged, and the fixed generic error string is returned.  (Totality is
expressed by the return type `String × List Event` of
`generate_response`, which is a total function.) -/
theorem generate_response_catches_all_exceptions (o : Oracle) (env : Env) (msg : String) :
    (∀ r evs, generate_response_body o env msg = (Except.ok r, evs) →
        generate_response o env msg = (r, evs)) ∧
    (∀ e evs, generate_response_body o env msg = (Except.error e, evs) →
        generate_response o env msg =
          (genericErrorMsg, evs ++ [Event.logError ("Error generating response: " ++ e)])) := by
  constructor <;> intro x evs h <;> simp [generate_response, h]

/-- Witness for C1: with both keys present and an interpreter call that
raises, the pipeline returns the fixed generic error string and logs
exactly one error. -/
theorem generate_response_catches_all_exceptions_witness :
    generate_response oBoomW envFullW "hi" =
      (genericErrorMsg,
       [Event.agentConstructed, Event.interpCall (interpretPrompt "hi")] ++
         [Event.logError ("Error generating response: " ++ "boom")]) :=
  (generate_response_catches_all_exceptions oBoomW envFullW "hi").2 "boom"
    [Event.agentConstructed, Event.interpCall (interpretPrompt "hi")] rfl

/-- C2: For every input message, if either required API key is absent
from the environment, `generate_response` returns the fixed missing-keys
message with an empty trace: no `PropertyFindingAgent` is constructed,
no interpretation, extraction or generation call is issued. -/
theorem missing_key_short_circuits (o : Oracle) (env : Env) (msg : String)
    (h : env.firecrawl_api_key = Option.none ∨ env.openai_api_key = Option.none) :
    generate_response o env msg = (missingKeysMsg, []) := by
  rcases h with h | h <;>
    simp [generate_response, generate_response_body, envTruthy, h]

/-- Witness for C2: with both keys unset, the missing-keys message is
returned and the trace is empty. -/
theorem missing_key_short_circuits_witness :
    generate_response oBoomW envEmptyW "flats in Pune" = (missingKeysMsg, []) :=
  missing_key_short_circuits oBoomW envEmptyW "flats in Pune" (Or.inl rfl)

/-- Counterexample for C3: when the generation call inside
`interpret_user_query` raises (the call at line 206 sits before the
`try` block at line 229), the exception propagates to the caller instead
of an empty mapping being returned. -/
theorem interp_generation_error_propagates_cex :
    (interpret_user_query oBoomW "q").1 = Except.error "boom" ∧
    (Except.error "boom" : Except String PyVal) ≠ Except.ok (PyVal.dict []) := by
  exact ⟨rfl, by simp⟩

/-- C3 (amended): only a parsing exception inside the `try` block makes
`interpret_user_query` return the empty mapping (folded into
`parseInterpreterResponse`); an exception from the generation call
itself propagates to the caller, where `generate_response`'s top-level
handler catches it. -/
theorem interp_exception_behavior (o : Oracle) (q : String) :
    (∀ e, o.interp (interpretPrompt q) = Except.error e →
        (interpret_user_query o q).1 = Except.error e) ∧
    (∀ c, o.interp (interpretPrompt q) = Except.ok c →
        (interpret_user_query o q).1 = Except.ok (parseInterpreterResponse c)) := by
  constructor <;> intro x h <;> simp [interpret_user_query, h]

/-- Witness for C3 (amended): a successful generation call never makes
`interpret_user_query` raise, whatever the content parses to. -/
theorem interp_exception_behavior_witness :
    (interpret_user_query oNoMatchW "q").1 =
      Except.ok (parseInterpreterResponse "no mention at all") :=
  (interp_exception_behavior oNoMatchW "q").2 "no mention at all" rfl

/-- Counterexample for C4: on the response text consisting of an opening
brace, "not json" and a closing brace, a brace-delimited substring is
located but fails to decode, and the parser returns the empty mapping —
not the claimed fallback mapping with an extracted city and hard
defaults. -/
theorem decode_failure_returns_empty_cex :
    parseInterpreterResponse "\x7bnot json\x7d" = PyVal.dict [] ∧
    PyVal.dict [] ≠
      PyVal.dict
        [("city", PyVal.none), ("max_price", PyVal.num 5),
         ("property_category", PyVal.str "Residential"),
         ("property_type", PyVal.str "Flat")] := by
  exact ⟨rfl, by simp⟩

/-- C4 (amended): the parser first attempts to locate a brace-delimited
substring.  When one is found and decodes, the decoded mapping is
returned; when one is found and the decode fails, the empty mapping is
returned (the `except` clause).  Only when no brace-delimited substring
is found does the parser fall back to the secondary city pattern with
the hard defaults `max_price=5.0`, `property_category="Residential"`,
`property_type="Flat"`. -/
theorem parse_fallback_structure (content : String) :
    (∀ s, braceSearch content = some s → jsonLoads s = Option.none →
        parseInterpreterResponse content = PyVal.dict []) ∧
    (∀ s v, braceSearch content = some s → jsonLoads s = some v →
        parseInterpreterResponse content = v) ∧
    (braceSearch content = Option.none →
        parseInterpreterResponse content =
          PyVal.dict
            [("city", match citySearch content with
                      | some c => PyVal.str c
                      | Option.none => PyVal.none),
             ("max_price", PyVal.num 5),
             ("property_category", PyVal.str "Residential"),
             ("property_type", PyVal.str "Flat")]) := by
  refine ⟨?_, ?_, ?_⟩ <;> intros <;> simp [parseInterpreterResponse, *]

/-- Witness for C4 (amended): a braceless response falls back to the
city pattern with the hard defaults. -/
theorem parse_fallback_structure_witness :
    parseInterpreterResponse "no braces here" =
      PyVal.dict
        [("city", match citySearch "no braces here" with
                  | some c => PyVal.str c
                  | Option.none => PyVal.none),
         ("max_price", PyVal.num 5),
         ("property_category", PyVal.str "Residential"),
         ("property_type", PyVal.str "Flat")] :=
  (parse_fallback_structure "no braces here").2.2 rfl

/-- Counterexample for C5: a whitespace-only message is truthy in
Python, so `if not message_body` does not catch it.  With both
credentials present, the single-space message reaches the query
interpreter (the trace records the interpretation call) and the reply is
the no-city message, not the fixed "please provide a search query"
message. -/
theorem whitespace_message_not_short_circuited_cex :
    (generate_response oNoMatchW envFullW " ").1 = noCityMsg ∧
    noCityMsg ≠ emptyQueryMsg ∧
    (generate_response oNoMatchW envFullW " ").2 =
      [Event.agentConstructed, Event.interpCall (interpretPrompt " ")] := by
  exact ⟨rfl, by decide, rfl⟩

/-- C5 (amended): for the empty input message (the only falsy string),
`generate_response` with both credentials present returns the fixed
"please provide a search query" message and does not invoke the query
interpreter — the trace holds only the agent construction.
Whitespace-only messages are truthy and proceed to interpretation. -/
theorem empty_message_short_circuit (o : Oracle) (env : Env)
    (h1 : envTruthy env.firecrawl_api_key = true)
    (h2 : envTruthy env.openai_api_key = true) :
    generate_response o env "" = (emptyQueryMsg, [Event.agentConstructed]) := by
  simp [generate_response, generate_response_body, h1, h2]

/-- Witness for C5 (amended). -/
theorem empty_message_short_circuit_witness :
    generate_response oBoomW envFullW "" = (emptyQueryMsg, [Event.agentConstructed]) :=
  empty_message_short_circuit oBoomW envFullW rfl rfl

/-- C6: for every extraction result that is not a mapping reporting a
truthy `success`, `find_properties` treats the property list as empty,
raises nothing at that step, and still issues the summarizer generation
call with the empty record list (the analysis prompt is built from
`PyVal.list []`); the call's outcome is whatever the summarizer
returns. -/
theorem extraction_failure_still_summarizes (o : Oracle) (city : String)
    (maxp cat ptyp raw : PyVal)
    (hx : o.extract (propertyUrls (strLower city))
            (findPrompt (PyVal.str city) cat
              (if pyEqStr ptyp "Flat" then "Flats" else "Individual Houses") maxp)
          = Except.ok raw)
    (hs : acceptSuccess raw = false) :
    find_properties o (PyVal.str city) maxp cat ptyp =
      (o.gen (analysisPrompt (PyVal.list []) cat ptyp maxp),
       [Event.extractCall (propertyUrls (strLower city))
          (findPrompt (PyVal.str city) cat
            (if pyEqStr ptyp "Flat" then "Flats" else "Individual Houses") maxp),
        Event.genCall (analysisPrompt (PyVal.list []) cat ptyp maxp)]) := by
  unfold find_properties
  simp [pyLower, hx, hs]

/-- Witness for C6: an extraction response with `success=false` still
leads to a summarizer call over the empty record list. -/
theorem extraction_failure_still_summarizes_witness :
    find_properties oExtractFailW (PyVal.str "Pune") (PyVal.num 2)
        (PyVal.str "Residential") (PyVal.str "Flat") =
      (oExtractFailW.gen
         (analysisPrompt (PyVal.list []) (PyVal.str "Residential") (PyVal.str "Flat")
           (PyVal.num 2)),
       [Event.extractCall (propertyUrls (strLower "Pune"))
          (findPrompt (PyVal.str "Pune") (PyVal.str "Residential")
            (if pyEqStr (PyVal.str "Flat") "Flat" then "Flats" else "Individual Houses")
            (PyVal.num 2)),
        Event.genCall
          (analysisPrompt (PyVal.list []) (PyVal.str "Residential") (PyVal.str "Flat")
            (PyVal.num 2))]) :=
  extraction_failure_still_summarizes oExtractFailW "Pune" (PyVal.num 2)
    (PyVal.str "Residential") (PyVal.str "Flat") rawFailW rfl rfl

/-- The parameter dict decoded from the round-trip JSON document. -/
def kvsRoundW : List (String × PyVal) :=
  [("city", PyVal.str "Pune"), ("max_price", PyVal.num 2),
   ("property_category", PyVal.str "Residential"), ("property_type", PyVal.str "Flat")]

/-- C7: whenever interpretation succeeds with a truthy city and the
listing fetch succeeds, `generate_response` returns the fetcher's text
verbatim wrapped under the fixed "PROPERTY RECOMMENDATIONS" header: the
reply is exactly the header block followed by the fetcher text and a
newline, so it contains the header followed by the generation content
unmodified. -/
theorem success_path_wraps_header (o : Oracle) (env : Env) (msg : String)
    (kvs : List (String × PyVal)) (evs : List Event) (results : String) (fevs : List Event)
    (h1 : envTruthy env.firecrawl_api_key = true)
    (h2 : envTruthy env.openai_api_key = true)
    (hm : msg ≠ "")
    (hi : interpret_user_query o msg = (Except.ok (PyVal.dict kvs), evs))
    (hc : ((dictLookup kvs "city").getD PyVal.none).truthy = true)
    (hf : find_properties o ((dictLookup kvs "city").getD PyVal.none)
            ((dictLookup kvs "max_price").getD (PyVal.num 5))
            ((dictLookup kvs "property_category").getD (PyVal.str "Residential"))
            ((dictLookup kvs "property_type").getD (PyVal.str "Flat"))
          = (Except.ok results, fevs)) :
    generate_response o env msg =
      (recommendHeader ++ results ++ "\n", [Event.agentConstructed] ++ evs ++ fevs) ∧
    (generate_response o env msg).1 =
      ("\n" ++ houseMark ++ " ") ++
        ("PROPERTY RECOMMENDATIONS\n" ++ dashes ++ "\n" ++ (results ++ "\n")) := by
  have hbody : generate_response_body o env msg =
      (Except.ok (recommendHeader ++ results ++ "\n"),
       [Event.agentConstructed] ++ evs ++ fevs) := by
    unfold generate_response_body
    rw [if_neg (by simp [h1, h2]), if_neg hm, hi]
    simp [pyGetE, hc, hf, finishFind]
  have hmain : generate_response o env msg =
      (recommendHeader ++ results ++ "\n", [Event.agentConstructed] ++ evs ++ fevs) := by
    simp [generate_response, hbody]
  refine ⟨hmain, ?_⟩
  rw [hmain]
  have hdr : recommendHeader =
      ("\n" ++ houseMark ++ " ") ++ ("PROPERTY RECOMMENDATIONS\n" ++ dashes ++ "\n") := by
    decide
  simp [hdr, String.append_assoc]

/-- Witness for C7: the fully successful oracle produces the header
block followed by the summarizer content "SUMMARY" verbatim. -/
theorem success_path_wraps_header_witness :
    generate_response oHappyW envFullW "flats in Pune" =
      (recommendHeader ++ "SUMMARY" ++ "\n",
       [Event.agentConstructed] ++ [Event.interpCall (interpretPrompt "flats in Pune")] ++
         [Event.extractCall (propertyUrls "pune")
            (findPrompt (PyVal.str "Pune") (PyVal.str "Residential") "Flats" (PyVal.num 2)),
          Event.genCall
            (analysisPrompt (PyVal.list []) (PyVal.str "Residential") (PyVal.str "Flat")
              (PyVal.num 2))]) :=
  (success_path_wraps_header oHappyW envFullW "flats in Pune" kvsRoundW
      [Event.interpCall (interpretPrompt "flats in Pune")] "SUMMARY"
      [Event.extractCall (propertyUrls "pune")
         (findPrompt (PyVal.str "Pune") (PyVal.str "Residential") "Flats" (PyVal.num 2)),
       Event.genCall
         (analysisPrompt (PyVal.list []) (PyVal.str "Residential") (PyVal.str "Flat")
           (PyVal.num 2))]
      rfl rfl (by decide) rfl rfl rfl).1

/-- C8: when the generation response content is exactly the literal JSON
document of the round-trip test, `interpret_user_query` returns the
mapping whose `city`, `max_price`, `property_category` and
`property_type` fields are exactly `"Pune"`, `2`, `"Residential"` and
`"Flat"` (the first opening brace and last closing brace delimit the
whole document, which decodes as-is). -/
theorem roundtrip_literal_json (o : Oracle) (q : String)
    (h : o.interp (interpretPrompt q) = Except.ok jsonLitC8) :
    (interpret_user_query o q).1 = Except.ok (PyVal.dict kvsRoundW) := by
  simp only [interpret_user_query, h]
  rfl

/-- Witness for C8, at the spec's own example query. -/
theorem roundtrip_literal_json_witness :
    (interpret_user_query oJsonW "3 BHK flats in Pune under 2 crore").1 =
      Except.ok (PyVal.dict kvsRoundW) :=
  roundtrip_literal_json oJsonW "3 BHK flats in Pune under 2 crore" rfl

/-- Counterexample for C9: the sentinel the code returns has no trailing
period — it is "No price trends data available", not the claimed
"No price trends data available." (and the trace shows no generation
call was made). -/
theorem trends_sentinel_period_cex :
    (get_location_trends oExtractFailW "Pune").1 = Except.ok noTrendsMsg ∧
    noTrendsMsg ≠ "No price trends data available." ∧
    (get_location_trends oExtractFailW "Pune").2 =
      [Event.extractCall [trendsUrl "Pune"] trendsExtractPrompt] := by
  exact ⟨rfl, by decide, rfl⟩

/-- C9 (amended): for every city, if the trend extraction result does
not report a truthy `success` (or is not a mapping), `get_location_trends`
returns the fixed sentinel string "No price trends data available"
(without a trailing period) and makes no generation call — the trace
holds only the extraction call. -/
theorem trends_failure_sentinel (o : Oracle) (city : String) (raw : PyVal)
    (hx : o.extract [trendsUrl city] trendsExtractPrompt = Except.ok raw)
    (hs : acceptSuccess raw = false) :
    get_location_trends o city =
      (Except.ok noTrendsMsg, [Event.extractCall [trendsUrl city] trendsExtractPrompt]) := by
  unfold get_location_trends
  simp [hx, hs]

/-- Witness for C9 (amended). -/
theorem trends_failure_sentinel_witness :
    get_location_trends oExtractFailW "Mumbai" =
      (Except.ok noTrendsMsg, [Event.extractCall [trendsUrl "Mumbai"] trendsExtractPrompt]) :=
  trends_failure_sentinel oExtractFailW "Mumbai" rawFailW rfl rfl

/-- The parameter dict of a response whose price is JSON `null`. -/
def kvsNullW : List (String × PyVal) :=
  [("city", PyVal.str "Pune"), ("max_price", PyVal.none)]

/-- An oracle whose interpreter reports a city and a `null` price. -/
def oNullPriceW : Oracle :=
  { oBoomW with interp := fun _ => .ok "\x7b\"city\":\"Pune\",\"max_price\":null\x7d" }

/-- C10 (implicit): in `generate_response` the `dict.get` defaults are
substituted only when the corresponding key is absent from the
interpreted mapping; a `max_price` key present with value `None` (as the
interpreter prompt requests for an unspecified price) is passed through
as `None` to `find_properties`, not replaced by the default `5.0` —
the default is used exactly when the key is missing. -/
theorem none_price_passed_through (o : Oracle) (env : Env) (msg : String)
    (kvs : List (String × PyVal)) (evs : List Event)
    (h1 : envTruthy env.firecrawl_api_key = true)
    (h2 : envTruthy env.openai_api_key = true)
    (hm : msg ≠ "")
    (hi : interpret_user_query o msg = (Except.ok (PyVal.dict kvs), evs))
    (hc : ((dictLookup kvs "city").getD PyVal.none).truthy = true) :
    (dictLookup kvs "max_price" = some PyVal.none →
      generate_response_body o env msg =
        finishFind ([Event.agentConstructed] ++ evs)
          (find_properties o ((dictLookup kvs "city").getD PyVal.none) PyVal.none
            ((dictLookup kvs "property_category").getD (PyVal.str "Residential"))
            ((dictLookup kvs "property_type").getD (PyVal.str "Flat")))) ∧
    (dictLookup kvs "max_price" = Option.none →
      generate_response_body o env msg =
        finishFind ([Event.agentConstructed] ++ evs)
          (find_properties o ((dictLookup kvs "city").getD PyVal.none) (PyVal.num 5)
            ((dictLookup kvs "property_category").getD (PyVal.str "Residential"))
            ((dictLookup kvs "property_type").getD (PyVal.str "Flat")))) := by
  constructor <;> intro hp <;>
    (unfold generate_response_body
     rw [if_neg (by simp [h1, h2]), if_neg hm, hi]
     simp [pyGetE, hc, hp])

/-- Witness for C10: a `null` price is forwarded as `None`. -/
theorem none_price_passed_through_witness :
    generate_response_body oNullPriceW envFullW "flats in Pune" =
      finishFind ([Event.agentConstructed] ++ [Event.interpCall (interpretPrompt "flats in Pune")])
        (find_properties oNullPriceW ((dictLookup kvsNullW "city").getD PyVal.none) PyVal.none
          ((dictLookup kvsNullW "property_category").getD (PyVal.str "Residential"))
          ((dictLookup kvsNullW "property_type").getD (PyVal.str "Flat"))) :=
  (none_price_passed_through oNullPriceW envFullW "flats in Pune" kvsNullW
      [Event.interpCall (interpretPrompt "flats in Pune")]
      rfl rfl (by decide) rfl rfl).1 rfl
